import Mathlib

/-!
Shallow embedding of the realtime-class fanout core
(`backend/socket/classHandlers.js` and the Mongoose schema declarations).

The JavaScript core keeps three pieces of mutable state:
  * `inMemoryCache : Map socketId -> session data` (the Session Registry),
  * `debounceTimers : Map socketId -> armed setTimeout handle` (the
    Write-Back Scheduler; the armed callback closes over the `html`/`css`
    of the `code_update` event that armed it),
  * Socket.IO rooms (class rooms named by the class code, and per-student
    rooms named `student:<socketId>`), plus a per-viewer field
    `socket.currentSubscription`.

We model the state as association lists keyed by socket id, external
effects (socket emits, durable-store writes, console logs) as an explicit
trace, and each socket event handler as a function
`ServerState -> inputs -> ServerState × List Effect`.  Results of external
calls (`Class.findOne`, success or failure of a durable write, generated
UUIDs, `Date.now()`) are passed in as parameters.  A debounce timer firing
is a separate step `debounceFire`: an armed timer is exactly an entry of
the timers map, re-arming replaces the entry (`clearTimeout` + `setTimeout`),
and a cancelled timer never fires (firing with no entry is a no-op).
-/

/-- `Map.get` on a JavaScript `Map`, modelled on an association list:
the first entry with the key (keys are unique in a real `Map`). -/
def mget {α : Type} : List (String × α) → String → Option α
  | [], _ => none
  | p :: rest, k => if p.1 == k then some p.2 else mget rest k

/-- `Map.set`: replace the first entry with the key, or append a fresh one. -/
def mset {α : Type} : List (String × α) → String → α → List (String × α)
  | [], k, v => [(k, v)]
  | p :: rest, k, v => if p.1 == k then (k, v) :: rest else p :: mset rest k v

/-- `Map.delete`: remove the entry with the key.  Keys are unique in a
real `Map`, so this is the same as dropping every pair carrying the key. -/
def mdel {α : Type} (m : List (String × α)) (k : String) : List (String × α) :=
  m.filter (fun p => p.1 != k)

/-- One entry of `inMemoryCache` (`sessionData` in `join_class`/`rejoin_class`). -/
structure SessionData where
  studentId : String
  studentName : String
  classCode : String
  socketId : String
  html : String
  css : String
  lastUpdate : Nat
deriving DecidableEq

/-- The document carried by an armed debounce timer: the `html`/`css`
captured by the `setTimeout` closure of the arming `code_update`. -/
structure Pending where
  html : String
  css : String
deriving DecidableEq

/-- A document of the `Class` Mongoose model, as the socket core reads it. -/
structure ClassDoc where
  className : String
  classCode : String
  isActive : Bool
deriving DecidableEq

/-- Payloads of `socket.emit` / `socket.to(room).emit` calls in the core. -/
inductive Emit where
  | joinError (message : String)
  | joinSuccess (studentId sessionId sockId : String) (isClassActive : Bool)
  | rejoinError (message : String) (isClassInactive : Bool)
  | rejoinSuccess (sessionId sockId : String) (isClassActive : Bool)
  | studentJoined (studentName sockId studentId : String) (timestamp : Nat)
      (isReconnect : Bool)
  | studentLeft (sockId studentId studentName reason : String)
  | codeSnapshot (sockId html css studentName : String) (lastUpdate : Nat)
  | codeUpdateEv (sockId html css : String) (timestamp : Nat)
  | teacherMessage (message : String)
deriving DecidableEq

/-- Externally visible actions of one handler run, in program order. -/
inductive Effect where
  /-- `socket.emit(...)` directly to one socket. -/
  | emitTo (target : String) (ev : Emit)
  /-- `socket.to(room).emit(...)`: delivered to every member of `room`
  except `sender`, resolved against room membership at delivery time. -/
  | emitRoom (room sender : String) (ev : Emit)
  /-- `CodeSession.create({studentId, studentName, classCode, socketId, expiresAt})`. -/
  | dbCreate (studentId studentName classCode sockId : String) (expiresAt : Nat)
  /-- `CodeSession.updateOne({studentId}, {socketId, studentName, expiresAt}, {upsert: true})`. -/
  | dbUpsertByStudent (studentId sockId studentName : String) (expiresAt : Nat)
  /-- `CodeSession.updateOne({socketId}, {html, css, lastUpdate})`. -/
  | dbWriteBySocket (sockId html css : String) (lastUpdate : Nat)
  /-- `console.error(...)`. -/
  | log (message : String)
deriving DecidableEq

/-- The mutable state owned by the fanout core (plus the Socket.IO room
table and the per-viewer `currentSubscription` fields, which the handlers
read and write through `socket.join` / `socket.leave`). -/
structure ServerState where
  inMemoryCache : List (String × SessionData)
  debounceTimers : List (String × Pending)
  /-- Room membership: one `(socketId, roomName)` pair per membership. -/
  rooms : List (String × String)
  /-- `socket.currentSubscription`, per viewer socket. -/
  currentSubscription : List (String × String)
deriving DecidableEq

def DEBOUNCE_DELAY : Nat := 3000

def MAX_STUDENTS_PER_CLASS : Nat := 60

def DAY_MS : Nat := 24 * 60 * 60 * 1000

/-- `socket.join(room)`: a no-op when already a member. -/
def roomJoin (rooms : List (String × String)) (s room : String) :
    List (String × String) :=
  if rooms.any (fun p => p.1 == s && p.2 == room) then rooms
  else rooms ++ [(s, room)]

/-- `socket.leave(room)`. -/
def roomLeave (rooms : List (String × String)) (s room : String) :
    List (String × String) :=
  rooms.filter (fun p => !(p.1 == s && p.2 == room))

/-- Recipients of `socket.to(room).emit`, resolved at delivery time:
every current member of `room` except the sender. -/
def deliveryTargets (rooms : List (String × String)) (room sender : String) :
    List String :=
  (rooms.filter (fun p => p.2 == room && p.1 != sender)).map (·.1)

/-- The Mongoose `uppercase: true` setter on `classCode` fields
(JavaScript `toUpperCase`), character by character. -/
def normalizeCode (s : String) : String := ⟨s.data.map Char.toUpper⟩

/-- Modelled from the spec: the Class Directory lookup `Class.findOne({classCode})`.
The matching engine (Mongoose query casting over MongoDB) is not part of
this repository's sources; per the spec the lookup is a case-insensitive
exact match, realised here by applying the `classSchema` `uppercase: true`
setter to the filter value before comparing it with the stored codes
(which that same setter already uppercased on save). -/
def classFindOne (dir : List ClassDoc) (classCode : String) : Option ClassDoc :=
  dir.find? (fun d => d.classCode == normalizeCode classCode)

/-- Count of live sessions of one class:
`Array.from(inMemoryCache.values()).filter(s => s.classCode === classCode).length`. -/
def countByClass (cache : List (String × SessionData)) (classCode : String) : Nat :=
  (cache.filter (fun p => p.2.classCode == classCode)).length

/-- The `join_class` handler.  External inputs: `dir` backs `Class.findOne`,
`genId` is the `crypto.randomUUID()` result, `now` is `Date.now()`, and
`dbOk` tells whether the fire-and-forget `CodeSession.create` promise
resolves (on rejection only a `console.error` is added). -/
def joinClass (dir : List ClassDoc) (st : ServerState)
    (sockId studentName classCode genId : String) (now : Nat) (dbOk : Bool) :
    ServerState × List Effect :=
  match classFindOne dir classCode with
  | none => (st, [.emitTo sockId (.joinError "Invalid class code")])
  | some classDoc =>
    if !classDoc.isActive then
      (st, [.emitTo sockId (.joinError "Class is not currently active")])
    else if countByClass st.inMemoryCache classCode ≥ MAX_STUDENTS_PER_CLASS then
      (st, [.emitTo sockId (.joinError "Class is full (maximum 60 students)")])
    else
      let sessionData : SessionData :=
        ⟨genId, studentName, classCode, sockId, "", "", now⟩
      let st1 : ServerState :=
        { st with
          inMemoryCache := mset st.inMemoryCache sockId sessionData
          rooms := roomJoin st.rooms sockId classCode }
      (st1,
        [Effect.dbCreate genId studentName classCode sockId (now + DAY_MS)] ++
        (if dbOk then [] else [Effect.log "DB save error"]) ++
        [Effect.emitRoom classCode sockId
           (.studentJoined studentName sockId genId now false),
         Effect.emitTo sockId (.joinSuccess genId genId sockId classDoc.isActive)])

/-- The `rejoin_class` handler; `studentId` is the caller-supplied stable id. -/
def rejoinClass (dir : List ClassDoc) (st : ServerState)
    (sockId studentId studentName classCode : String) (now : Nat) (dbOk : Bool) :
    ServerState × List Effect :=
  match classFindOne dir classCode with
  | none => (st, [.emitTo sockId (.rejoinError "Invalid class code" false)])
  | some classDoc =>
    if !classDoc.isActive then
      (st, [.emitTo sockId (.rejoinError "Class is not currently live" true)])
    else if countByClass st.inMemoryCache classCode ≥ MAX_STUDENTS_PER_CLASS then
      (st, [.emitTo sockId (.rejoinError "Class is full (maximum 60 students)" false)])
    else
      let sessionData : SessionData :=
        ⟨studentId, studentName, classCode, sockId, "", "", now⟩
      let st1 : ServerState :=
        { st with
          inMemoryCache := mset st.inMemoryCache sockId sessionData
          rooms := roomJoin st.rooms sockId classCode }
      (st1,
        [Effect.dbUpsertByStudent studentId sockId studentName (now + DAY_MS)] ++
        (if dbOk then [] else [Effect.log "DB update error"]) ++
        [Effect.emitRoom classCode sockId
           (.studentJoined studentName sockId studentId now true),
         Effect.emitTo sockId (.rejoinSuccess studentId sockId true)])

/-- The `teacher_join_room` handler: join the class room only (the teacher
is never put into `inMemoryCache`). -/
def teacherJoinRoom (st : ServerState) (sockId classCode : String) :
    ServerState × List Effect :=
  ({ st with rooms := roomJoin st.rooms sockId classCode }, [])

/-- The `subscribe_to_student` handler: leave the previous per-student room
(if `socket.currentSubscription` is set), join `student:<target>`, record the
new subscription, and emit a snapshot only when the target is in the cache. -/
def subscribeToStudent (st : ServerState) (sockId studentSocketId : String) :
    ServerState × List Effect :=
  let rooms1 :=
    match mget st.currentSubscription sockId with
    | some prev => roomLeave st.rooms sockId ("student:" ++ prev)
    | none => st.rooms
  let st1 : ServerState :=
    { st with
      rooms := roomJoin rooms1 sockId ("student:" ++ studentSocketId)
      currentSubscription := mset st.currentSubscription sockId studentSocketId }
  match mget st.inMemoryCache studentSocketId with
  | some sc =>
    (st1, [.emitTo sockId
      (.codeSnapshot studentSocketId sc.html sc.css sc.studentName sc.lastUpdate)])
  | none => (st1, [])

/-- The `code_update` handler: a no-op when the sender never joined;
otherwise update the cache, emit to the sender's per-student room, and
re-arm the debounce timer (`clearTimeout` + `setTimeout` = replace the
timers entry with one carrying the latest document). -/
def codeUpdate (st : ServerState) (sockId html css : String) (now : Nat) :
    ServerState × List Effect :=
  match mget st.inMemoryCache sockId with
  | none => (st, [])
  | some session =>
    let st1 : ServerState :=
      { st with
        inMemoryCache := mset st.inMemoryCache sockId
          { session with html := html, css := css, lastUpdate := now }
        debounceTimers := mset st.debounceTimers sockId ⟨html, css⟩ }
    (st1, [.emitRoom ("student:" ++ sockId) sockId (.codeUpdateEv sockId html css now)])

/-- The debounce `setTimeout` callback firing for `sockId` at time `now`.
An armed, uncancelled timer is exactly an entry of `debounceTimers` (arming
put it there, `clearTimeout` paths remove or replace it), and the entry's
`Pending` document is the closure of the live callback.  On a successful
write the entry is deleted; when `CodeSession.updateOne` rejects, the
`catch` only logs, and the (now dead) entry is left in the map. -/
def debounceFire (st : ServerState) (sockId : String) (dbOk : Bool) (now : Nat) :
    ServerState × List Effect :=
  match mget st.debounceTimers sockId with
  | none => (st, [])
  | some p =>
    if dbOk then
      ({ st with debounceTimers := mdel st.debounceTimers sockId },
       [.dbWriteBySocket sockId p.html p.css now])
    else
      (st, [.dbWriteBySocket sockId p.html p.css now, .log "DB update error"])

/-- The `teacher_broadcast` handler. -/
def teacherBroadcast (st : ServerState) (sockId classCode message : String) :
    ServerState × List Effect :=
  (st, [.emitRoom classCode sockId (.teacherMessage message)])

/-- The `disconnect` handler: a no-op when no session is registered;
otherwise cancel the pending debounce timer, write the cached document
immediately (a failure only logs), delete the session, and notify the
class room. -/
def disconnectHandler (st : ServerState) (sockId : String) (dbOk : Bool) (now : Nat) :
    ServerState × List Effect :=
  match mget st.inMemoryCache sockId with
  | none => (st, [])
  | some session =>
    let st1 : ServerState :=
      { st with
        debounceTimers := mdel st.debounceTimers sockId
        inMemoryCache := mdel st.inMemoryCache sockId }
    (st1,
      [Effect.dbWriteBySocket sockId session.html session.css now] ++
      (if dbOk then [] else [Effect.log "Final DB save error"]) ++
      [Effect.emitRoom session.classCode sockId
        (.studentLeft sockId session.studentId session.studentName "disconnected")])

/-- Durable-store write attempts within an effect trace. -/
def Effect.isDbWrite : Effect → Bool
  | .dbCreate .. => true
  | .dbUpsertByStudent .. => true
  | .dbWriteBySocket .. => true
  | _ => false

/-- Socket deliveries within an effect trace. -/
def Effect.isEmit : Effect → Bool
  | .emitTo .. => true
  | .emitRoom .. => true
  | _ => false

def Effect.isLog : Effect → Bool
  | .log _ => true
  | _ => false

def dbWrites (effs : List Effect) : List Effect :=
  effs.filter Effect.isDbWrite

def nonLogEffects (effs : List Effect) : List Effect :=
  effs.filter (fun e => !e.isLog)

/-- Did the handler run accept the join, i.e. emit `join_success` to the caller? -/
def emitsJoinSuccess (effs : List Effect) (sockId : String) : Bool :=
  effs.any (fun e =>
    match e with
    | .emitTo t (.joinSuccess ..) => t == sockId
    | _ => false)

/-- Did the handler run accept the rejoin, i.e. emit `rejoin_success` to the caller? -/
def emitsRejoinSuccess (effs : List Effect) (sockId : String) : Bool :=
  effs.any (fun e =>
    match e with
    | .emitTo t (.rejoinSuccess ..) => t == sockId
    | _ => false)

/-! ## Association-list map lemmas -/

theorem mget_mset_self {α : Type} (m : List (String × α)) (k : String) (v : α) :
    mget (mset m k v) k = some v := by
  induction m with
  | nil => simp [mset, mget]
  | cons p rest ih =>
    by_cases h : p.1 = k
    · simp [mset, mget, h]
    · simp [mset, mget, h, ih]

theorem mget_mset_ne {α : Type} (m : List (String × α)) (k k' : String) (v : α)
    (h : k' ≠ k) : mget (mset m k v) k' = mget m k' := by
  induction m with
  | nil => simp [mset, mget, Ne.symm h]
  | cons p rest ih =>
    by_cases hp : p.1 = k
    · simp [mset, mget, hp, Ne.symm h]
    · by_cases hp' : p.1 = k'
      · simp [mset, mget, hp, hp', h]
      · simp [mset, mget, hp, hp', ih]

theorem mget_mdel_self {α : Type} (m : List (String × α)) (k : String) :
    mget (mdel m k) k = none := by
  induction m with
  | nil => simp [mdel, mget]
  | cons p rest ih =>
    by_cases h : p.1 = k
    · simpa [mdel, h] using ih
    · simpa [mdel, mget, h] using ih

/-! ## Shared concrete inputs used by witnesses -/

def demoSession : SessionData :=
  ⟨"uuid-a", "Bob", "AB12CD", "s1", "<p>", "body \x7b\x7d", 0⟩

def demoState : ServerState :=
  ⟨[("s1", demoSession)], [], [("s1", "AB12CD")], []⟩

def demoClass : ClassDoc := ⟨"Demo", "AB12CD", true⟩

def demoDir : List ClassDoc := [demoClass]

/-! ## C1 -/

/-- C1: two `code_update` events from the same connection inside one
debounce window (the first timer never fires because re-arming replaced
it) produce exactly one durable write, carrying the later document; no
write carrying the intermediate document occurs anywhere in the trace,
and after the flush no timer is left armed. -/
theorem debounce_last_write_wins (st : ServerState) (sockId h1 c1 h2 c2 : String)
    (t1 t2 t3 : Nat) (s : SessionData)
    (hs : mget st.inMemoryCache sockId = some s) :
    dbWrites ((codeUpdate st sockId h1 c1 t1).2 ++
        (codeUpdate (codeUpdate st sockId h1 c1 t1).1 sockId h2 c2 t2).2 ++
        (debounceFire (codeUpdate (codeUpdate st sockId h1 c1 t1).1 sockId h2 c2 t2).1
          sockId true t3).2) = [Effect.dbWriteBySocket sockId h2 c2 t3] ∧
    mget (debounceFire (codeUpdate (codeUpdate st sockId h1 c1 t1).1 sockId h2 c2 t2).1
        sockId true t3).1.debounceTimers sockId = none := by
  constructor
  · simp [codeUpdate, debounceFire, hs, mget_mset_self, dbWrites, Effect.isDbWrite]
  · simp [codeUpdate, debounceFire, hs, mget_mset_self, mget_mdel_self]

theorem debounce_last_write_wins_witness :
    mget demoState.inMemoryCache "s1" = some demoSession ∧
    (dbWrites ((codeUpdate demoState "s1" "a" "b" 1).2 ++
        (codeUpdate (codeUpdate demoState "s1" "a" "b" 1).1 "s1" "x" "y" 2).2 ++
        (debounceFire (codeUpdate (codeUpdate demoState "s1" "a" "b" 1).1 "s1" "x" "y" 2).1
          "s1" true 5).2) = [Effect.dbWriteBySocket "s1" "x" "y" 5] ∧
      mget (debounceFire (codeUpdate (codeUpdate demoState "s1" "a" "b" 1).1 "s1" "x" "y" 2).1
          "s1" true 5).1.debounceTimers "s1" = none) :=
  ⟨by decide,
   debounce_last_write_wins demoState "s1" "a" "b" "x" "y" 1 2 5 demoSession (by decide)⟩

/-! ## C2 -/

/-- C2: a disconnect while a debounce timer is armed performs exactly one
durable write — the immediate flush carrying the cached session's latest
document — cancels the pending timer, and a later firing attempt of that
timer is a no-op (no duplicate write), whether or not the flush itself
succeeds at the store. -/
theorem disconnect_single_flush (st : ServerState) (sockId : String) (b b2 : Bool)
    (now t2 : Nat) (s : SessionData) (p : Pending)
    (hs : mget st.inMemoryCache sockId = some s)
    (_hp : mget st.debounceTimers sockId = some p) :
    dbWrites (disconnectHandler st sockId b now).2 =
      [Effect.dbWriteBySocket sockId s.html s.css now] ∧
    mget (disconnectHandler st sockId b now).1.debounceTimers sockId = none ∧
    debounceFire (disconnectHandler st sockId b now).1 sockId b2 t2 =
      ((disconnectHandler st sockId b now).1, []) := by
  refine ⟨?_, ?_, ?_⟩
  · cases b <;>
      simp [disconnectHandler, hs, dbWrites, Effect.isDbWrite]
  · simp [disconnectHandler, hs, mget_mdel_self]
  · have hnone : mget (disconnectHandler st sockId b now).1.debounceTimers sockId = none := by
      simp [disconnectHandler, hs, mget_mdel_self]
    simp [debounceFire, hnone]

theorem disconnect_single_flush_witness :
    mget (codeUpdate demoState "s1" "a" "b" 1).1.inMemoryCache "s1" =
      some { demoSession with html := "a", css := "b", lastUpdate := 1 } ∧
    mget (codeUpdate demoState "s1" "a" "b" 1).1.debounceTimers "s1" = some ⟨"a", "b"⟩ ∧
    (dbWrites (disconnectHandler (codeUpdate demoState "s1" "a" "b" 1).1 "s1" true 9).2 =
      [Effect.dbWriteBySocket "s1" "a" "b" 9] ∧
    mget (disconnectHandler (codeUpdate demoState "s1" "a" "b" 1).1 "s1" true 9).1.debounceTimers
      "s1" = none ∧
    debounceFire (disconnectHandler (codeUpdate demoState "s1" "a" "b" 1).1 "s1" true 9).1
        "s1" true 12 =
      ((disconnectHandler (codeUpdate demoState "s1" "a" "b" 1).1 "s1" true 9).1, [])) :=
  ⟨by decide, by decide,
   disconnect_single_flush (codeUpdate demoState "s1" "a" "b" 1).1 "s1" true true 9 12
     { demoSession with html := "a", css := "b", lastUpdate := 1 } ⟨"a", "b"⟩
     (by decide) (by decide)⟩

/-! ## C10 -/

/-- C10: a `code_update` from a connection with no registered session is a
complete no-op — the state (registry, timers, rooms, subscriptions) is
returned unchanged and no effect (no delivery, no durable write, no timer
arming) is produced. -/
theorem codeUpdate_noop_when_not_joined (st : ServerState) (sockId html css : String)
    (now : Nat) (h : mget st.inMemoryCache sockId = none) :
    codeUpdate st sockId html css now = (st, []) := by
  simp [codeUpdate, h]

theorem codeUpdate_noop_when_not_joined_witness :
    mget demoState.inMemoryCache "ghost" = none ∧
    codeUpdate demoState "ghost" "a" "b" 7 = (demoState, []) :=
  ⟨by decide, codeUpdate_noop_when_not_joined demoState "ghost" "a" "b" 7 (by decide)⟩

/-! ## Counting lemmas for the capacity check -/

theorem mdel_eq_self {α : Type} (m : List (String × α)) (k : String)
    (h : k ∉ m.map Prod.fst) : mdel m k = m := by
  unfold mdel
  rw [List.filter_eq_self]
  intro a ha
  have hak : a.1 ≠ k := by
    intro hak
    exact h (hak ▸ List.mem_map_of_mem Prod.fst ha)
  simpa using hak

theorem countByClass_cons (p : String × SessionData) (l : List (String × SessionData))
    (code : String) :
    countByClass (p :: l) code =
      countByClass l code + (if p.2.classCode = code then 1 else 0) := by
  by_cases hpc : p.2.classCode = code <;>
    simp [countByClass, List.filter_cons, hpc]

theorem countByClass_mdel (cache : List (String × SessionData)) (d code : String)
    (s : SessionData) (hnd : (cache.map Prod.fst).Nodup)
    (hs : mget cache d = some s) (hc : s.classCode = code) :
    countByClass (mdel cache d) code + 1 = countByClass cache code := by
  induction cache with
  | nil => simp [mget] at hs
  | cons p rest ih =>
    rw [List.map_cons, List.nodup_cons] at hnd
    by_cases h : p.1 = d
    · have hps : p.2 = s := by
        have h2 := hs
        simp [mget, h] at h2
        exact h2
      have hrest : mdel rest d = rest := mdel_eq_self rest d (h ▸ hnd.1)
      have hmd : mdel (p :: rest) d = rest := by
        have hcond : (p.1 != d) = false := by simp [h]
        unfold mdel
        rw [List.filter_cons, hcond]
        simpa [mdel] using hrest
      rw [hmd, countByClass_cons]
      simp [hps, hc]
    · have hs' : mget rest d = some s := by
        have h2 := hs
        simp [mget, h] at h2
        exact h2
      have hmd : mdel (p :: rest) d = p :: mdel rest d := by
        have hcond : (p.1 != d) = true := by simp [h]
        unfold mdel
        rw [List.filter_cons, hcond]
        simp
      rw [hmd, countByClass_cons, countByClass_cons]
      have ihr := ih hnd.2 hs'
      omega

/-- A join request for a valid, active class with live-session count below
the ceiling is accepted. -/
theorem joinClass_success_of_lt (dir : List ClassDoc) (st : ServerState)
    (sockId studentName classCode genId : String) (now : Nat) (b : Bool)
    (doc : ClassDoc) (hdoc : classFindOne dir classCode = some doc)
    (hact : doc.isActive = true)
    (hlt : countByClass st.inMemoryCache classCode < MAX_STUDENTS_PER_CLASS) :
    emitsJoinSuccess (joinClass dir st sockId studentName classCode genId now b).2
      sockId = true := by
  cases b <;>
    simp [joinClass, hdoc, hact, Nat.not_le.mpr hlt, emitsJoinSuccess]

/-- A rejoin request for a valid, active class with live-session count
below the ceiling is accepted. -/
theorem rejoinClass_success_of_lt (dir : List ClassDoc) (st : ServerState)
    (sockId studentId studentName classCode : String) (now : Nat) (b : Bool)
    (doc : ClassDoc) (hdoc : classFindOne dir classCode = some doc)
    (hact : doc.isActive = true)
    (hlt : countByClass st.inMemoryCache classCode < MAX_STUDENTS_PER_CLASS) :
    emitsRejoinSuccess
      (rejoinClass dir st sockId studentId studentName classCode now b).2 sockId = true := by
  cases b <;>
    simp [rejoinClass, hdoc, hact, Nat.not_le.mpr hlt, emitsRejoinSuccess]

/-! ## C3 -/

/-- C3: for a valid and active class code, a join is accepted exactly when
the live-session count of that class is below the 60-student ceiling (so
the 60th session is admitted), a join or rejoin at or above the ceiling is
rejected with the class-full error, the same ceiling governs rejoin, a
member's disconnect lowers the count by one, and at a full class a join
retried after one member's disconnect is accepted again. -/
theorem class_capacity_ceiling (dir : List ClassDoc) (st : ServerState)
    (sockId studentName classCode genId studentId d : String)
    (now : Nat) (b : Bool) (doc : ClassDoc) (sd : SessionData)
    (hdoc : classFindOne dir classCode = some doc)
    (hact : doc.isActive = true)
    (hnd : (st.inMemoryCache.map Prod.fst).Nodup)
    (hd : mget st.inMemoryCache d = some sd)
    (hdc : sd.classCode = classCode) :
    (countByClass st.inMemoryCache classCode < MAX_STUDENTS_PER_CLASS →
      emitsJoinSuccess (joinClass dir st sockId studentName classCode genId now b).2
        sockId = true) ∧
    (countByClass st.inMemoryCache classCode ≥ MAX_STUDENTS_PER_CLASS →
      (joinClass dir st sockId studentName classCode genId now b).2 =
        [Effect.emitTo sockId (.joinError "Class is full (maximum 60 students)")]) ∧
    (countByClass st.inMemoryCache classCode < MAX_STUDENTS_PER_CLASS →
      emitsRejoinSuccess
        (rejoinClass dir st sockId studentId studentName classCode now b).2 sockId = true) ∧
    (countByClass st.inMemoryCache classCode ≥ MAX_STUDENTS_PER_CLASS →
      (rejoinClass dir st sockId studentId studentName classCode now b).2 =
        [Effect.emitTo sockId (.rejoinError "Class is full (maximum 60 students)" false)]) ∧
    (countByClass (disconnectHandler st d b now).1.inMemoryCache classCode + 1 =
      countByClass st.inMemoryCache classCode) ∧
    (countByClass st.inMemoryCache classCode = MAX_STUDENTS_PER_CLASS →
      emitsJoinSuccess
        (joinClass dir (disconnectHandler st d b now).1 sockId studentName classCode
          genId now b).2 sockId = true) := by
  have hcount : countByClass (disconnectHandler st d b now).1.inMemoryCache classCode + 1 =
      countByClass st.inMemoryCache classCode := by
    simp only [disconnectHandler, hd]
    exact countByClass_mdel st.inMemoryCache d classCode sd hnd hd hdc
  refine ⟨?_, ?_, ?_, ?_, hcount, ?_⟩
  · intro hlt
    exact joinClass_success_of_lt dir st sockId studentName classCode genId now b doc
      hdoc hact hlt
  · intro hge
    simp [joinClass, hdoc, hact, hge]
  · intro hlt
    exact rejoinClass_success_of_lt dir st sockId studentId studentName classCode now b doc
      hdoc hact hlt
  · intro hge
    simp [rejoinClass, hdoc, hact, hge]
  · intro hfull
    have hM : MAX_STUDENTS_PER_CLASS = 60 := rfl
    have hlt : countByClass (disconnectHandler st d b now).1.inMemoryCache classCode <
        MAX_STUDENTS_PER_CLASS := by omega
    exact joinClass_success_of_lt dir (disconnectHandler st d b now).1 sockId studentName
      classCode genId now b doc hdoc hact hlt

/-- A class filled to the 60-student ceiling. -/
def demo60 : ServerState :=
  ⟨(List.range 60).map
      (fun i => ("st" ++ toString i, { demoSession with socketId := "st" ++ toString i })),
    [], [], []⟩

theorem class_capacity_ceiling_witness :
    (classFindOne demoDir "AB12CD" = some demoClass ∧
     demoClass.isActive = true ∧
     (demo60.inMemoryCache.map Prod.fst).Nodup ∧
     mget demo60.inMemoryCache "st0" = some { demoSession with socketId := "st0" } ∧
     SessionData.classCode { demoSession with socketId := "st0" } = "AB12CD") ∧
    ((countByClass demo60.inMemoryCache "AB12CD" < MAX_STUDENTS_PER_CLASS →
      emitsJoinSuccess (joinClass demoDir demo60 "s9" "Eve" "AB12CD" "uuid-e" 3 true).2
        "s9" = true) ∧
    (countByClass demo60.inMemoryCache "AB12CD" ≥ MAX_STUDENTS_PER_CLASS →
      (joinClass demoDir demo60 "s9" "Eve" "AB12CD" "uuid-e" 3 true).2 =
        [Effect.emitTo "s9" (.joinError "Class is full (maximum 60 students)")]) ∧
    (countByClass demo60.inMemoryCache "AB12CD" < MAX_STUDENTS_PER_CLASS →
      emitsRejoinSuccess
        (rejoinClass demoDir demo60 "s9" "uuid-e" "Eve" "AB12CD" 3 true).2 "s9" = true) ∧
    (countByClass demo60.inMemoryCache "AB12CD" ≥ MAX_STUDENTS_PER_CLASS →
      (rejoinClass demoDir demo60 "s9" "uuid-e" "Eve" "AB12CD" 3 true).2 =
        [Effect.emitTo "s9" (.rejoinError "Class is full (maximum 60 students)" false)]) ∧
    (countByClass (disconnectHandler demo60 "st0" true 3).1.inMemoryCache "AB12CD" + 1 =
      countByClass demo60.inMemoryCache "AB12CD") ∧
    (countByClass demo60.inMemoryCache "AB12CD" = MAX_STUDENTS_PER_CLASS →
      emitsJoinSuccess
        (joinClass demoDir (disconnectHandler demo60 "st0" true 3).1 "s9" "Eve" "AB12CD"
          "uuid-e" 3 true).2 "s9" = true)) :=
  ⟨⟨by decide, by decide, by decide, by decide, by decide⟩,
   class_capacity_ceiling demoDir demo60 "s9" "Eve" "AB12CD" "uuid-e" "uuid-a" "st0" 3 true
     demoClass { demoSession with socketId := "st0" }
     (by decide) (by decide) (by decide) (by decide) (by decide)⟩

/-! ## Room-membership lemmas -/

theorem string_append_left_cancel {p a b : String} (h : p ++ a = p ++ b) : a = b := by
  have hd : (p ++ a).data = (p ++ b).data := congrArg String.data h
  rw [String.data_append, String.data_append] at hd
  exact String.ext (List.append_cancel_left hd)

theorem mem_roomJoin_self (rooms : List (String × String)) (s room : String) :
    (s, room) ∈ roomJoin rooms s room := by
  unfold roomJoin
  by_cases hmem : rooms.any (fun p => p.1 == s && p.2 == room) = true
  · rw [if_pos hmem]
    simp only [List.any_eq_true, Bool.and_eq_true, beq_iff_eq] at hmem
    obtain ⟨p, hp, h1, h2⟩ := hmem
    have : p = (s, room) := by
      cases p
      simp_all
    exact this ▸ hp
  · rw [if_neg hmem]
    simp

theorem mem_of_mem_roomJoin {rooms : List (String × String)} {s room x y : String}
    (h : (x, y) ∈ roomJoin rooms s room) :
    (x, y) ∈ rooms ∨ (x = s ∧ y = room) := by
  unfold roomJoin at h
  by_cases hmem : rooms.any (fun p => p.1 == s && p.2 == room) = true
  · rw [if_pos hmem] at h
    exact Or.inl h
  · rw [if_neg hmem] at h
    rcases List.mem_append.mp h with h' | h'
    · exact Or.inl h'
    · simp only [List.mem_singleton, Prod.mk.injEq] at h'
      exact Or.inr h'

theorem not_mem_roomLeave (rooms : List (String × String)) (s room : String) :
    (s, room) ∉ roomLeave rooms s room := by
  unfold roomLeave
  intro h
  have := (List.mem_filter.mp h).2
  simp at this

theorem mem_deliveryTargets_iff (rooms : List (String × String)) (room sender v : String) :
    v ∈ deliveryTargets rooms room sender ↔ ((v, room) ∈ rooms ∧ v ≠ sender) := by
  unfold deliveryTargets
  simp only [List.mem_map, List.mem_filter, Bool.and_eq_true, beq_iff_eq, bne_iff_ne]
  constructor
  · rintro ⟨⟨x, y⟩, ⟨hmem, hy, hx⟩, rfl⟩
    subst hy
    exact ⟨hmem, hx⟩
  · rintro ⟨hmem, hv⟩
    exact ⟨(v, room), ⟨hmem, rfl, hv⟩, rfl⟩

/-! ## Handler frame lemmas -/

theorem subscribe_cache (st : ServerState) (v target : String) :
    (subscribeToStudent st v target).1.inMemoryCache = st.inMemoryCache := by
  unfold subscribeToStudent
  cases mget st.currentSubscription v <;> cases mget st.inMemoryCache target <;> simp

theorem subscribe_subs (st : ServerState) (v target : String) :
    (subscribeToStudent st v target).1.currentSubscription =
      mset st.currentSubscription v target := by
  unfold subscribeToStudent
  cases mget st.currentSubscription v <;> cases mget st.inMemoryCache target <;> simp

theorem subscribe_rooms_of_sub (st : ServerState) (v target prev : String)
    (h : mget st.currentSubscription v = some prev) :
    (subscribeToStudent st v target).1.rooms =
      roomJoin (roomLeave st.rooms v ("student:" ++ prev)) v ("student:" ++ target) := by
  unfold subscribeToStudent
  rw [h]
  cases mget st.inMemoryCache target <;> simp

theorem codeUpdate_rooms (st : ServerState) (sockId html css : String) (now : Nat) :
    (codeUpdate st sockId html css now).1.rooms = st.rooms := by
  unfold codeUpdate
  cases mget st.inMemoryCache sockId <;> simp

/-! ## C4 -/

/-- C4: after `subscribe_to_student(v, t)` followed by
`subscribe_to_student(v, t2)` (with `t ≠ t2`), a `code_update` from `t` is
routed to the room `student:t` and its delivery set — resolved against room
membership at delivery time — no longer contains the viewer, while a
`code_update` from `t2` is routed to `student:t2`, whose delivery set does
contain the viewer. -/
theorem subscribe_switch_no_stale_delivery (st : ServerState)
    (v t t2 html css : String) (now : Nat) (s s2 : SessionData)
    (hne : t ≠ t2) (hv2 : v ≠ t2)
    (hs : mget st.inMemoryCache t = some s)
    (hs2 : mget st.inMemoryCache t2 = some s2) :
    (codeUpdate ((subscribeToStudent (subscribeToStudent st v t).1 v t2).1) t html css now).2 =
      [Effect.emitRoom ("student:" ++ t) t (.codeUpdateEv t html css now)] ∧
    v ∉ deliveryTargets
        (codeUpdate ((subscribeToStudent (subscribeToStudent st v t).1 v t2).1) t html css now).1.rooms
        ("student:" ++ t) t ∧
    (codeUpdate ((subscribeToStudent (subscribeToStudent st v t).1 v t2).1) t2 html css now).2 =
      [Effect.emitRoom ("student:" ++ t2) t2 (.codeUpdateEv t2 html css now)] ∧
    v ∈ deliveryTargets
        (codeUpdate ((subscribeToStudent (subscribeToStudent st v t).1 v t2).1) t2 html css now).1.rooms
        ("student:" ++ t2) t2 := by
  set st1 := (subscribeToStudent st v t).1 with hst1
  set st2 := (subscribeToStudent st1 v t2).1 with hst2
  have hc1 : st1.inMemoryCache = st.inMemoryCache := subscribe_cache st v t
  have hc2 : st2.inMemoryCache = st.inMemoryCache := by
    rw [hst2, subscribe_cache, hc1]
  have hsub1 : mget st1.currentSubscription v = some t := by
    rw [hst1, subscribe_subs]
    exact mget_mset_self st.currentSubscription v t
  have hrooms2 : st2.rooms =
      roomJoin (roomLeave st1.rooms v ("student:" ++ t)) v ("student:" ++ t2) :=
    subscribe_rooms_of_sub st1 v t2 t hsub1
  have hst : mget st2.inMemoryCache t = some s := by rw [hc2]; exact hs
  have hst' : mget st2.inMemoryCache t2 = some s2 := by rw [hc2]; exact hs2
  have hnotmem : (v, "student:" ++ t) ∉ st2.rooms := by
    rw [hrooms2]
    intro hmem
    rcases mem_of_mem_roomJoin hmem with h' | ⟨_, h'⟩
    · exact not_mem_roomLeave st1.rooms v ("student:" ++ t) h'
    · exact hne (string_append_left_cancel h')
  have hmem2 : (v, "student:" ++ t2) ∈ st2.rooms := by
    rw [hrooms2]
    exact mem_roomJoin_self _ v ("student:" ++ t2)
  refine ⟨?_, ?_, ?_, ?_⟩
  · simp [codeUpdate, hst]
  · rw [codeUpdate_rooms]
    intro hmem
    exact hnotmem ((mem_deliveryTargets_iff st2.rooms ("student:" ++ t) t v).mp hmem).1
  · simp [codeUpdate, hst']
  · rw [codeUpdate_rooms]
    exact (mem_deliveryTargets_iff st2.rooms ("student:" ++ t2) t2 v).mpr ⟨hmem2, hv2⟩

/-- Two live student sessions for the subscription-switch witness. -/
def demoState2 : ServerState :=
  ⟨[("s1", demoSession), ("s2", { demoSession with studentId := "uuid-b", socketId := "s2" })],
    [], [], []⟩

theorem subscribe_switch_no_stale_delivery_witness :
    (("s1" : String) ≠ "s2" ∧ ("v" : String) ≠ "s2" ∧
     mget demoState2.inMemoryCache "s1" = some demoSession ∧
     mget demoState2.inMemoryCache "s2" =
       some { demoSession with studentId := "uuid-b", socketId := "s2" }) ∧
    ((codeUpdate ((subscribeToStudent (subscribeToStudent demoState2 "v" "s1").1 "v" "s2").1)
        "s1" "x" "y" 4).2 =
      [Effect.emitRoom ("student:" ++ "s1") "s1" (.codeUpdateEv "s1" "x" "y" 4)] ∧
    "v" ∉ deliveryTargets
        (codeUpdate ((subscribeToStudent (subscribeToStudent demoState2 "v" "s1").1 "v" "s2").1)
          "s1" "x" "y" 4).1.rooms ("student:" ++ "s1") "s1" ∧
    (codeUpdate ((subscribeToStudent (subscribeToStudent demoState2 "v" "s1").1 "v" "s2").1)
        "s2" "x" "y" 4).2 =
      [Effect.emitRoom ("student:" ++ "s2") "s2" (.codeUpdateEv "s2" "x" "y" 4)] ∧
    "v" ∈ deliveryTargets
        (codeUpdate ((subscribeToStudent (subscribeToStudent demoState2 "v" "s1").1 "v" "s2").1)
          "s2" "x" "y" 4).1.rooms ("student:" ++ "s2") "s2") :=
  ⟨⟨by decide, by decide, by decide, by decide⟩,
   subscribe_switch_no_stale_delivery demoState2 "v" "s1" "s2" "x" "y" 4 demoSession
     { demoSession with studentId := "uuid-b", socketId := "s2" }
     (by decide) (by decide) (by decide) (by decide)⟩

/-! ## C5 -/

/-- C5 counterexample: subscribing to a target with no live session
produces an empty effect trace — in particular the viewer receives NO
snapshot reply at all (the code only emits `student_code_snapshot` when
the cache lookup succeeds), contradicting the claim that a reply with
empty content is still sent. -/
theorem subscribe_vanished_no_reply_counterexample :
    mget (⟨[], [], [], []⟩ : ServerState).inMemoryCache "tX" = none ∧
    (subscribeToStudent ⟨[], [], [], []⟩ "v" "tX").2 = [] := by
  constructor
  · rfl
  · rfl

/-- C5 amended: subscribing to a vanished target does not fault and emits
nothing — an absent snapshot rather than an empty-content snapshot reply;
the subscription itself is still switched to the new target (room joined,
`currentSubscription` updated). -/
theorem subscribe_vanished_silent (st : ServerState) (v target : String)
    (h : mget st.inMemoryCache target = none) :
    (subscribeToStudent st v target).2 = [] ∧
    mget (subscribeToStudent st v target).1.currentSubscription v = some target ∧
    (v, "student:" ++ target) ∈ (subscribeToStudent st v target).1.rooms := by
  refine ⟨?_, ?_, ?_⟩
  · unfold subscribeToStudent
    rw [h]
  · rw [subscribe_subs]
    exact mget_mset_self st.currentSubscription v target
  · unfold subscribeToStudent
    rw [h]
    cases mget st.currentSubscription v <;> simp <;>
      exact mem_roomJoin_self _ v ("student:" ++ target)

theorem subscribe_vanished_silent_witness :
    mget demoState.inMemoryCache "tX" = none ∧
    ((subscribeToStudent demoState "v" "tX").2 = [] ∧
     mget (subscribeToStudent demoState "v" "tX").1.currentSubscription "v" = some "tX" ∧
     ("v", "student:" ++ "tX") ∈ (subscribeToStudent demoState "v" "tX").1.rooms) :=
  ⟨by decide, subscribe_vanished_silent demoState "v" "tX" (by decide)⟩

/-! ## C6 -/

/-- C6 counterexample: a successful rejoin on a new connection `s2` with
the studentId already held by the stale cache entry of dead connection
`s1` (same class) does NOT overwrite that stale entry — both live sessions
remain registered with the same `studentId` in the same class, violating
the claimed uniqueness-preserving overwrite. -/
theorem rejoin_stale_studentId_counterexample :
    demoSession.studentId = "uuid-a" ∧ demoSession.classCode = "AB12CD" ∧
    mget (rejoinClass demoDir demoState "s2" "uuid-a" "Bob" "AB12CD" 5 true).1.inMemoryCache
      "s1" = some demoSession ∧
    mget (rejoinClass demoDir demoState "s2" "uuid-a" "Bob" "AB12CD" 5 true).1.inMemoryCache
      "s2" = some ⟨"uuid-a", "Bob", "AB12CD", "s2", "", "", 5⟩ := by
  refine ⟨rfl, rfl, by decide, by decide⟩

/-- C6 amended: a successful join or rejoin registers the new Session
keyed by its own connection id — overwriting only a prior entry for that
same connection id — and leaves every other registry entry (including a
stale entry holding the same reused `studentId` under a dead connection
id) untouched; such a stale entry is only removed when that connection's
own disconnect is processed, so registration alone does not enforce
`studentId` uniqueness within a class. -/
theorem register_overwrites_by_connectionId (dir : List ClassDoc) (st : ServerState)
    (sockId studentId studentName classCode genId k : String) (now : Nat) (b : Bool)
    (doc : ClassDoc)
    (hdoc : classFindOne dir classCode = some doc)
    (hact : doc.isActive = true)
    (hcap : countByClass st.inMemoryCache classCode < MAX_STUDENTS_PER_CLASS)
    (hk : k ≠ sockId) :
    mget (joinClass dir st sockId studentName classCode genId now b).1.inMemoryCache sockId =
      some ⟨genId, studentName, classCode, sockId, "", "", now⟩ ∧
    mget (joinClass dir st sockId studentName classCode genId now b).1.inMemoryCache k =
      mget st.inMemoryCache k ∧
    mget (rejoinClass dir st sockId studentId studentName classCode now b).1.inMemoryCache
      sockId = some ⟨studentId, studentName, classCode, sockId, "", "", now⟩ ∧
    mget (rejoinClass dir st sockId studentId studentName classCode now b).1.inMemoryCache k =
      mget st.inMemoryCache k := by
  have hjoin : (joinClass dir st sockId studentName classCode genId now b).1.inMemoryCache =
      mset st.inMemoryCache sockId ⟨genId, studentName, classCode, sockId, "", "", now⟩ := by
    simp [joinClass, hdoc, hact, Nat.not_le.mpr hcap]
  have hrejoin :
      (rejoinClass dir st sockId studentId studentName classCode now b).1.inMemoryCache =
        mset st.inMemoryCache sockId ⟨studentId, studentName, classCode, sockId, "", "", now⟩ := by
    simp [rejoinClass, hdoc, hact, Nat.not_le.mpr hcap]
  refine ⟨?_, ?_, ?_, ?_⟩
  · rw [hjoin]; exact mget_mset_self _ _ _
  · rw [hjoin]; exact mget_mset_ne _ _ _ _ hk
  · rw [hrejoin]; exact mget_mset_self _ _ _
  · rw [hrejoin]; exact mget_mset_ne _ _ _ _ hk

theorem register_overwrites_by_connectionId_witness :
    (classFindOne demoDir "AB12CD" = some demoClass ∧ demoClass.isActive = true ∧
     countByClass demoState.inMemoryCache "AB12CD" < MAX_STUDENTS_PER_CLASS ∧
     ("s1" : String) ≠ "s2") ∧
    (mget (joinClass demoDir demoState "s2" "Bob" "AB12CD" "uuid-g" 5 true).1.inMemoryCache
        "s2" = some ⟨"uuid-g", "Bob", "AB12CD", "s2", "", "", 5⟩ ∧
     mget (joinClass demoDir demoState "s2" "Bob" "AB12CD" "uuid-g" 5 true).1.inMemoryCache
        "s1" = mget demoState.inMemoryCache "s1" ∧
     mget (rejoinClass demoDir demoState "s2" "uuid-a" "Bob" "AB12CD" 5 true).1.inMemoryCache
        "s2" = some ⟨"uuid-a", "Bob", "AB12CD", "s2", "", "", 5⟩ ∧
     mget (rejoinClass demoDir demoState "s2" "uuid-a" "Bob" "AB12CD" 5 true).1.inMemoryCache
        "s1" = mget demoState.inMemoryCache "s1") :=
  ⟨⟨by decide, by decide, by decide, by decide⟩,
   register_overwrites_by_connectionId demoDir demoState "s2" "uuid-a" "Bob" "AB12CD"
     "uuid-g" "s1" 5 true demoClass (by decide) (by decide) (by decide) (by decide)⟩

/-! ## C7 -/

/-- C7: for the three durable-store writes initiated by the core — the
debounced write, the creation on join, and the final flush on disconnect —
a store failure is logged and dropped: the failing run issues the same
single write attempt as the successful run (no retry), its non-log effects
equal those of the successful run (so nothing is surfaced to the
originating connection — the failure only adds a `console.error`), and the
in-memory session registry is left exactly as the successful run leaves
it.  For the join and the flush even the whole post-state coincides; the
failed debounced write only leaves the already-fired timer entry behind. -/
theorem store_failure_logged_and_dropped (dir : List ClassDoc) (st : ServerState)
    (sockId studentName classCode genId : String) (now : Nat) :
    ((debounceFire st sockId false now).1.inMemoryCache = st.inMemoryCache ∧
     dbWrites (debounceFire st sockId false now).2 =
       dbWrites (debounceFire st sockId true now).2 ∧
     (debounceFire st sockId false now).2.all (fun e => !e.isEmit) = true) ∧
    ((joinClass dir st sockId studentName classCode genId now false).1 =
       (joinClass dir st sockId studentName classCode genId now true).1 ∧
     nonLogEffects (joinClass dir st sockId studentName classCode genId now false).2 =
       nonLogEffects (joinClass dir st sockId studentName classCode genId now true).2) ∧
    ((disconnectHandler st sockId false now).1 = (disconnectHandler st sockId true now).1 ∧
     nonLogEffects (disconnectHandler st sockId false now).2 =
       nonLogEffects (disconnectHandler st sockId true now).2 ∧
     (disconnectHandler st sockId false now).2.all
       (fun e => match e with | .emitTo .. => false | _ => true) = true) := by
  refine ⟨⟨?_, ?_, ?_⟩, ⟨?_, ?_⟩, ⟨?_, ?_, ?_⟩⟩
  · cases hp : mget st.debounceTimers sockId <;> simp [debounceFire, hp]
  · cases hp : mget st.debounceTimers sockId <;>
      simp [debounceFire, hp, dbWrites, Effect.isDbWrite]
  · cases hp : mget st.debounceTimers sockId <;>
      simp [debounceFire, hp, Effect.isEmit]
  · cases hfo : classFindOne dir classCode with
    | none => simp [joinClass, hfo]
    | some doc =>
      by_cases hact : doc.isActive = true <;>
        by_cases hcap : countByClass st.inMemoryCache classCode ≥ MAX_STUDENTS_PER_CLASS <;>
          simp [joinClass, hfo, hact, hcap]
  · cases hfo : classFindOne dir classCode with
    | none => simp [joinClass, hfo]
    | some doc =>
      by_cases hact : doc.isActive = true <;>
        by_cases hcap : countByClass st.inMemoryCache classCode ≥ MAX_STUDENTS_PER_CLASS <;>
          simp [joinClass, hfo, hact, hcap, nonLogEffects, Effect.isLog]
  · cases hc : mget st.inMemoryCache sockId <;> simp [disconnectHandler, hc]
  · cases hc : mget st.inMemoryCache sockId <;>
      simp [disconnectHandler, hc, nonLogEffects, Effect.isLog]
  · cases hc : mget st.inMemoryCache sockId <;> simp [disconnectHandler, hc]

/-! ## C8 -/

theorem classFindOne_mem_of_norm (q : String) (c : ClassDoc) :
    ∀ dir : List ClassDoc, (∀ d ∈ dir, normalizeCode d.classCode = d.classCode) →
      dir.Pairwise (fun a b => a.classCode ≠ b.classCode) →
      c ∈ dir → normalizeCode q = c.classCode → classFindOne dir q = some c := by
  intro dir
  induction dir with
  | nil =>
    intro _ _ hc _
    cases hc
  | cons d rest ih =>
    intro hnorm huniq hc hq
    rw [List.pairwise_cons] at huniq
    rcases List.mem_cons.mp hc with rfl | hcr
    · unfold classFindOne
      rw [List.find?_cons_of_pos]
      simp [hq]
    · have hne : d.classCode ≠ c.classCode := huniq.1 c hcr
      have hrest := ih (fun x hx => hnorm x (List.mem_cons_of_mem d hx)) huniq.2 hcr hq
      unfold classFindOne at hrest ⊢
      rw [List.find?_cons_of_neg, hrest]
      simp [hq, hne]

/-- C8: the Class Directory lookup used by `join_class`/`rejoin_class` is a
case-insensitive exact match.  Stored codes are already uppercased by the
schema setter and unique; a query equal to a stored active class's code up
to letter case resolves to that class, and a query matching no stored code
(after normalisation) yields no class. -/
theorem class_lookup_case_insensitive (dir : List ClassDoc) (q : String) (c : ClassDoc)
    (hnorm : ∀ d ∈ dir, normalizeCode d.classCode = d.classCode)
    (huniq : dir.Pairwise (fun a b => a.classCode ≠ b.classCode)) :
    (c ∈ dir → normalizeCode q = normalizeCode c.classCode →
      classFindOne dir q = some c) ∧
    ((∀ d ∈ dir, d.classCode ≠ normalizeCode q) → classFindOne dir q = none) := by
  constructor
  · intro hc hq
    exact classFindOne_mem_of_norm q c dir hnorm huniq hc (by rw [hq, hnorm c hc])
  · intro hnone
    unfold classFindOne
    rw [List.find?_eq_none]
    intro d hd
    simp [hnone d hd]

theorem class_lookup_case_insensitive_witness :
    ((∀ d ∈ demoDir, normalizeCode d.classCode = d.classCode) ∧
     demoDir.Pairwise (fun a b => a.classCode ≠ b.classCode)) ∧
    ((demoClass ∈ demoDir → normalizeCode "ab12cd" = normalizeCode demoClass.classCode →
       classFindOne demoDir "ab12cd" = some demoClass) ∧
     ((∀ d ∈ demoDir, d.classCode ≠ normalizeCode "ab12cd") →
       classFindOne demoDir "ab12cd" = none)) :=
  ⟨⟨by decide, by decide⟩,
   class_lookup_case_insensitive demoDir "ab12cd" demoClass (by decide) (by decide)⟩

/-! ## C9 -/

/-- C9: group membership and moderation events are emitted to the class
room with the originator as excluded sender — `student_joined` on join,
`teacher_message` on a moderation broadcast, `student_left` on disconnect —
and the delivery set of such a room emit, resolved against the resulting
state, is exactly the room's members other than the originator: the
originator never receives its own group event, every other member does. -/
theorem group_events_exclude_originator (dir : List ClassDoc) (st : ServerState)
    (sockId studentName classCode genId message w : String) (now : Nat) (b : Bool)
    (doc : ClassDoc) (s : SessionData)
    (hdoc : classFindOne dir classCode = some doc)
    (hact : doc.isActive = true)
    (hcap : countByClass st.inMemoryCache classCode < MAX_STUDENTS_PER_CLASS)
    (hs : mget st.inMemoryCache sockId = some s)
    (hw : w ≠ sockId) :
    (Effect.emitRoom classCode sockId (.studentJoined studentName sockId genId now false) ∈
      (joinClass dir st sockId studentName classCode genId now b).2 ∧
     sockId ∉ deliveryTargets (joinClass dir st sockId studentName classCode genId now b).1.rooms
       classCode sockId ∧
     ((w, classCode) ∈ (joinClass dir st sockId studentName classCode genId now b).1.rooms ↔
       w ∈ deliveryTargets (joinClass dir st sockId studentName classCode genId now b).1.rooms
         classCode sockId)) ∧
    (teacherBroadcast st sockId classCode message =
      (st, [Effect.emitRoom classCode sockId (.teacherMessage message)]) ∧
     sockId ∉ deliveryTargets st.rooms classCode sockId ∧
     ((w, classCode) ∈ st.rooms ↔ w ∈ deliveryTargets st.rooms classCode sockId)) ∧
    (Effect.emitRoom s.classCode sockId
        (.studentLeft sockId s.studentId s.studentName "disconnected") ∈
      (disconnectHandler st sockId b now).2 ∧
     sockId ∉ deliveryTargets (disconnectHandler st sockId b now).1.rooms s.classCode sockId ∧
     ((w, s.classCode) ∈ (disconnectHandler st sockId b now).1.rooms ↔
       w ∈ deliveryTargets (disconnectHandler st sockId b now).1.rooms s.classCode sockId)) := by
  have hself : ∀ (rooms : List (String × String)) (room : String),
      sockId ∉ deliveryTargets rooms room sockId := by
    intro rooms room hmem
    exact ((mem_deliveryTargets_iff rooms room sockId sockId).mp hmem).2 rfl
  have hother : ∀ (rooms : List (String × String)) (room : String),
      ((w, room) ∈ rooms ↔ w ∈ deliveryTargets rooms room sockId) := by
    intro rooms room
    constructor
    · intro hmem
      exact (mem_deliveryTargets_iff rooms room sockId w).mpr ⟨hmem, hw⟩
    · intro hmem
      exact ((mem_deliveryTargets_iff rooms room sockId w).mp hmem).1
  refine ⟨⟨?_, hself _ _, hother _ _⟩, ⟨rfl, hself _ _, hother _ _⟩,
    ⟨?_, hself _ _, hother _ _⟩⟩
  · cases b <;> simp [joinClass, hdoc, hact, Nat.not_le.mpr hcap]
  · cases b <;> simp [disconnectHandler, hs]

theorem group_events_exclude_originator_witness :
    (classFindOne demoDir "AB12CD" = some demoClass ∧ demoClass.isActive = true ∧
     countByClass demoState.inMemoryCache "AB12CD" < MAX_STUDENTS_PER_CLASS ∧
     mget demoState.inMemoryCache "s1" = some demoSession ∧ ("s2" : String) ≠ "s1") ∧
    ((Effect.emitRoom "AB12CD" "s1" (.studentJoined "Bob" "s1" "uuid-g" 5 false) ∈
        (joinClass demoDir demoState "s1" "Bob" "AB12CD" "uuid-g" 5 true).2 ∧
      "s1" ∉ deliveryTargets (joinClass demoDir demoState "s1" "Bob" "AB12CD" "uuid-g" 5
          true).1.rooms "AB12CD" "s1" ∧
      (("s2", "AB12CD") ∈ (joinClass demoDir demoState "s1" "Bob" "AB12CD" "uuid-g" 5
          true).1.rooms ↔
        "s2" ∈ deliveryTargets (joinClass demoDir demoState "s1" "Bob" "AB12CD" "uuid-g" 5
          true).1.rooms "AB12CD" "s1")) ∧
    (teacherBroadcast demoState "s1" "AB12CD" "hello" =
      (demoState, [Effect.emitRoom "AB12CD" "s1" (.teacherMessage "hello")]) ∧
     "s1" ∉ deliveryTargets demoState.rooms "AB12CD" "s1" ∧
     (("s2", "AB12CD") ∈ demoState.rooms ↔
       "s2" ∈ deliveryTargets demoState.rooms "AB12CD" "s1")) ∧
    (Effect.emitRoom demoSession.classCode "s1"
        (.studentLeft "s1" demoSession.studentId demoSession.studentName "disconnected") ∈
      (disconnectHandler demoState "s1" true 5).2 ∧
     "s1" ∉ deliveryTargets (disconnectHandler demoState "s1" true 5).1.rooms
       demoSession.classCode "s1" ∧
     (("s2", demoSession.classCode) ∈ (disconnectHandler demoState "s1" true 5).1.rooms ↔
       "s2" ∈ deliveryTargets (disconnectHandler demoState "s1" true 5).1.rooms
         demoSession.classCode "s1"))) :=
  ⟨⟨by decide, by decide, by decide, by decide, by decide⟩,
   group_events_exclude_originator demoDir demoState "s1" "Bob" "AB12CD" "uuid-g" "hello"
     "s2" 5 true demoClass demoSession (by decide) (by decide) (by decide) (by decide)
     (by decide)⟩
